import Mathlib

/-!
Shallow embedding of `src/bew.py` (HTT-App): an OCR front-end whose backend
consists of `OCRProcessor` (engine locating, image preprocessing, text
extraction via an external Tesseract binary) and `HandwritingToTextBackend`
(path validation gates, delegation, text saving).

All interactions with the outside world (filesystem existence checks,
subprocess version probes, PIL image operations, pytesseract recognition,
file writes) are modelled as oracle fields of an `Env` structure; a Python
call that can raise is modelled as returning `Except String α`, the error
carrying the exception's message (`str(e)`).  Python `None`-typed and
wrong-type inputs are not representable in the typed embedding (the code's
`is None` / `isinstance` guards are vacuously passed); all claims quantify
over string inputs only.
-/

/-- Abstract handle for an in-memory PIL image object. -/
abbrev Img := Nat

/-- Outcome of `subprocess.run([cmd, "--version"], ..., timeout=t)`:
normal exit with code 0, normal exit with nonzero code (carrying stderr),
`TimeoutExpired`, or any other raised exception (carrying its message). -/
inductive ProbeOutcome where
  | ok
  | exitFail (stderr : String)
  | timeout
  | exn (msg : String)
deriving DecidableEq, Repr

/-- File contents (the model keeps text files only): path to contents. -/
abbrev FS := String → Option String

/-- The external world as seen by `bew.py`:
  * `pathExists`  — `os.path.exists`;
  * `username`    — `os.getenv("USERNAME")` (may be absent, rendered "None");
  * `probeVersion cmd t` — result of `subprocess.run([cmd, "--version"], timeout=t)`;
  * `openImage`   — `Image.open` (may raise);
  * `convertGray` — `img.convert("L")` (may raise);
  * `enhanceContrast img k` — `ImageEnhance.Contrast(img).enhance(k)` (may raise);
  * `sharpen`     — `img.filter(ImageFilter.SHARPEN)` (may raise);
  * `imageToString img cfg` — `pytesseract.image_to_string(img, config=cfg)` (may raise);
  * `writeError p` — `some msg` when `open(p, "w").write` raises an
    `OSError` with message `msg`, `none` when the write succeeds. -/
structure Env where
  pathExists : String → Bool
  username : Option String
  probeVersion : String → Nat → ProbeOutcome
  openImage : String → Except String Img
  convertGray : Img → Except String Img
  enhanceContrast : Img → Nat → Except String Img
  sharpen : Img → Except String Img
  imageToString : Img → String → Except String String
  writeError : String → Option String

/-- `os.getenv("USERNAME")` interpolated into an f-string: `None` renders
as the literal text "None". -/
def renderUsername : Option String → String
  | some u => u
  | none => "None"

/-- First well-known install location probed by `OCRProcessor.__init__`. -/
def winProgramFiles : String := "C:\\Program Files\\Tesseract-OCR\\tesseract.exe"

/-- Second well-known install location probed by `OCRProcessor.__init__`. -/
def winProgramFilesX86 : String := "C:\\Program Files (x86)\\Tesseract-OCR\\tesseract.exe"

/-- Per-user install location, built from the USERNAME environment variable. -/
def winUserLocal (username : Option String) : String :=
  "C:\\Users\\" ++ renderUsername username ++
    "\\AppData\\Local\\Programs\\Tesseract-OCR\\tesseract.exe"

/-- The fixed candidate list of `OCRProcessor.__init__` before the optional
hint is inserted: two Program Files locations, the per-user location, then
the bare command name "tesseract" resolved via PATH. -/
def base_paths (env : Env) : List String :=
  [winProgramFiles, winProgramFilesX86, winUserLocal env.username, "tesseract"]

/-- `possible_paths` after the `if tesseract_path: possible_paths.insert(0, ...)`
step: a truthy (non-empty) hint goes first; `None` or an empty hint leaves
the base list unchanged (Python truthiness of the empty string). -/
def possible_paths (env : Env) (tesseract_path : Option String) : List String :=
  match tesseract_path with
  | some h => if h = "" then base_paths env else h :: base_paths env
  | none => base_paths env

/-- The acceptance test of the locator loop body: the bare name "tesseract"
is accepted iff `subprocess.run(["tesseract", "--version"], timeout=10)`
exits with code 0 (any exception is caught and the loop continues); a
path-form candidate is accepted iff `os.path.exists` holds. -/
def accepts (env : Env) (p : String) : Bool :=
  if p = "tesseract" then
    match env.probeVersion "tesseract" 10 with
    | .ok => true
    | _ => false
  else env.pathExists p

/-- The `for path in possible_paths` loop of `OCRProcessor.__init__`:
returns the first accepted candidate (the loop breaks there) or `none`. -/
def locate (env : Env) : List String → Option String
  | [] => none
  | p :: ps => if accepts env p then some p else locate env ps

/-- One character as rendered inside a single-quoted Python `repr` string
literal: a backslash is doubled, a single quote, tab, newline or carriage
return is backslash-escaped, every other character stands for itself.
(Python additionally hex-escapes the remaining control characters and
switches to double-quote delimiters for a string containing a single
quote but no double quote; no candidate path the program builds contains
any such character.) -/
def pyReprChar (c : Char) : List Char :=
  if c = '\\' then ['\\', '\\']
  else if c = '\x27' then ['\\', '\x27']
  else if c = '\t' then ['\\', 't']
  else if c = '\n' then ['\\', 'n']
  else if c = '\r' then ['\\', 'r']
  else [c]

/-- Python `repr` of one string: single-quote delimiters around the
backslash-escaped characters.  The Windows-path candidates therefore
appear in the fatal message with their backslashes doubled. -/
def pyReprStr (s : String) : String :=
  "\x27" ++ (String.mk (s.data.flatMap pyReprChar) ++ "\x27")

/-- The element renderings of the interpolated list, comma-separated:
each element appears via its Python `repr`. -/
def pyItems : List String → String
  | [] => ""
  | [p] => pyReprStr p
  | p :: q :: ps => pyReprStr p ++ (", " ++ pyItems (q :: ps))

/-- Python `repr` of a list of strings, as interpolated by f"{possible_paths}". -/
def pyListRepr (ps : List String) : String := "[" ++ pyItems ps ++ "]"

/-- The fixed text of the fatal initialization message, up to the
interpolated candidate list. -/
def tesseract_not_found_header : String :=
  "Tesseract not found! Please install Tesseract-OCR from:\nhttps://github.com/UB-Mannheim/tesseract/wiki\nTried paths: "

/-- The fatal initialization message raised when no candidate is accepted:
it interpolates the whole candidate list. -/
def tesseract_not_found_msg (paths : List String) : String :=
  tesseract_not_found_header ++ pyListRepr paths

/-- The state a successfully constructed `OCRProcessor` carries: the
resolved `pytesseract.pytesseract.tesseract_cmd` and `self.config`. -/
structure OCRState where
  tesseract_cmd : String
  config : String
deriving DecidableEq, Repr

/-- `OCRProcessor.__init__(tesseract_path)`: build the ordered candidate
list, run the locator loop, and either construct the state (with the fixed
config string) or raise `ValueError` enumerating every candidate tried. -/
def OCRProcessor_init (env : Env) (tesseract_path : Option String) :
    Except String OCRState :=
  match locate env (possible_paths env tesseract_path) with
  | some cmd => .ok ⟨cmd, "--oem 3 --psm 6"⟩
  | none => .error (tesseract_not_found_msg (possible_paths env tesseract_path))

/-- Body of the `try` in `OCRProcessor.preprocess_image`: existence check,
`Image.open`, grayscale conversion, contrast enhancement by the fixed
factor 2, sharpen filter.  (The `image_path is None` guard is
unrepresentable for a string input.) -/
def preprocess_body (env : Env) (image_path : String) : Except String Img :=
  if env.pathExists image_path then
    match env.openImage image_path with
    | .error e => .error e
    | .ok i1 =>
      match env.convertGray i1 with
      | .error e => .error e
      | .ok i2 =>
        match env.enhanceContrast i2 2 with
        | .error e => .error e
        | .ok i3 => env.sharpen i3
  else .error ("Image file does not exist: " ++ image_path)

/-- `OCRProcessor.preprocess_image`: any exception in the body is caught
and re-raised as `ValueError(f"Image processing failed: ...")`. -/
def preprocess_image (env : Env) (image_path : String) : Except String Img :=
  match preprocess_body env image_path with
  | .ok img => .ok img
  | .error e => .error ("Image processing failed: " ++ e)

/-- The image-acquisition phase of `OCRProcessor.extract_text`: preprocess
when the flag is on, otherwise check existence and open the raw file. -/
def acquire_image (env : Env) (image_path : String) (preprocess : Bool) :
    Except String Img :=
  if preprocess then preprocess_image env image_path
  else if env.pathExists image_path then env.openImage image_path
  else .error ("Image file does not exist: " ++ image_path)

/-- Python's default `str.strip()` whitespace test (ASCII whitespace). -/
def isSpaceChar (c : Char) : Bool :=
  c = ' ' || c = '\t' || c = '\n' || c = '\r' || c = '\x0b' || c = '\x0c'

/-- Python `str.strip()`: drop whitespace from both ends. -/
def pyStrip (s : String) : String :=
  ⟨((s.data.dropWhile isSpaceChar).reverse.dropWhile isSpaceChar).reverse⟩

/-- The inner `try` of `OCRProcessor.extract_text` that re-validates the
resolved engine command before recognition: if the command exists on the
filesystem or is the bare name "tesseract", re-run the version probe with
timeout 5 and fail on nonzero exit; otherwise fail "not found".
`TimeoutExpired` escapes as "Tesseract test timed out"; every other
exception raised inside this `try` (including the two `ValueError`s it
raises itself) is caught by its own `except Exception` clause and
re-raised as "Tesseract validation failed: ...". -/
def validate_cmd (env : Env) (cmd : String) : Except String Unit :=
  if env.pathExists cmd || cmd = "tesseract" then
    match env.probeVersion cmd 5 with
    | .ok => .ok ()
    | .exitFail s => .error ("Tesseract validation failed: " ++ ("Tesseract test failed: " ++ s))
    | .timeout => .error "Tesseract test timed out"
    | .exn m => .error ("Tesseract validation failed: " ++ m)
  else
    .error ("Tesseract validation failed: " ++ ("Tesseract executable not found at: " ++ cmd))

/-- Body of the outer `try` in `OCRProcessor.extract_text`: empty-path
guard, image acquisition, engine re-validation, recognition with the fixed
config, and `text.strip()`.  (The `is None` / `isinstance` guards are
unrepresentable for a string input.) -/
def extract_text_body (env : Env) (st : OCRState) (image_path : String)
    (preprocess : Bool) : Except String String :=
  if image_path = "" then .error "Image path is empty string"
  else
    match acquire_image env image_path preprocess with
    | .error e => .error e
    | .ok img =>
      match validate_cmd env st.tesseract_cmd with
      | .error e => .error e
      | .ok _ =>
        match env.imageToString img st.config with
        | .error e => .error e
        | .ok text => .ok (pyStrip text)

/-- `OCRProcessor.extract_text`: any exception in the body is caught and
re-raised as the single uniform `ValueError(f"Text extraction failed: ...")`
carrying the original message. -/
def extract_text (env : Env) (st : OCRState) (image_path : String)
    (preprocess : Bool) : Except String String :=
  match extract_text_body env st image_path preprocess with
  | .ok t => .ok t
  | .error e => .error ("Text extraction failed: " ++ e)

/-- Python `str.lower()`, characterwise (the file-extension characters the
gate compares are all ASCII, where this agrees with Python's casefolding). -/
def pyLower (s : String) : String := ⟨s.data.map Char.toLower⟩

/-- Python `str.endswith(suffix)`: the suffix's characters end the string. -/
def pyEndsWith (s suffix : String) : Bool := suffix.data.isSuffixOf s.data

/-- `image_path.lower().endswith((".png", ".jpg", ".jpeg", ".bmp"))`. -/
def supportedFormat (p : String) : Bool :=
  pyEndsWith (pyLower p) ".png" || pyEndsWith (pyLower p) ".jpg" ||
    pyEndsWith (pyLower p) ".jpeg" || pyEndsWith (pyLower p) ".bmp"

/-- `HandwritingToTextBackend.process_image`: emptiness gate, existence
gate, extension gate, then delegation to `extract_text` (preprocess on)
with its exception converted to a `(False, message)` pair.  The gates run
outside the `try`; none of them can raise for a string input, so the
function is total (it always returns a pair). -/
def process_image (env : Env) (st : OCRState) (image_path : String) :
    Bool × String :=
  if image_path = "" then (false, "No image path provided")
  else if env.pathExists image_path = false then (false, "File not found")
  else if supportedFormat image_path = false then (false, "Unsupported file format")
  else
    match extract_text env st image_path true with
    | .ok t => (true, t)
    | .error e => (false, e)

/-- `HandwritingToTextBackend.save_text`: inside one `try`, reject falsy
text, reject a falsy output path, then write the text (UTF-8); an `OSError`
from the write is caught and converted to `(False, "Error saving file: ...")`.
Returns the result pair together with the filesystem after the call. -/
def save_text (env : Env) (fs : FS) (text output_path : String) :
    (Bool × String) × FS :=
  if text = "" then ((false, "No text to save"), fs)
  else if output_path = "" then ((false, "No output path provided"), fs)
  else
    match env.writeError output_path with
    | some e => ((false, "Error saving file: " ++ e), fs)
    | none =>
      ((true, "Text saved successfully"),
        fun p => if p = output_path then some text else fs p)

/-- Reading a saved file back: lookup in the modelled filesystem. -/
def readFile (fs : FS) (p : String) : Option String := fs p

/-! Concrete environments and states used by the witness theorems. -/

/-- The `OCRState` of a processor resolved to the bare PATH command. -/
def stOk : OCRState := ⟨"tesseract", "--oem 3 --psm 6"⟩

/-- Empty filesystem. -/
def fs0 : FS := fun _ => none

/-- A healthy world: one input image, one installed engine, all probes and
library calls succeed, writes succeed. -/
def envOk : Env :=
  { pathExists := fun p => p == "in.png" || p == winProgramFiles
    username := some "alice"
    probeVersion := fun _ _ => .ok
    openImage := fun _ => .ok 0
    convertGray := fun i => .ok i
    enhanceContrast := fun i _ => .ok i
    sharpen := fun i => .ok i
    imageToString := fun _ _ => .ok " TEST \n"
    writeError := fun _ => none }

/-- A world with no files and no runnable engine. -/
def envNoFile : Env :=
  { envOk with
    pathExists := fun _ => false
    probeVersion := fun _ _ => .exn "No such file or directory" }

/-- A world where opening the image and writing the output both fail. -/
def envFail : Env :=
  { envOk with
    openImage := fun _ => .error "cannot identify image file"
    writeError := fun _ => some "Permission denied" }

/-- A world where the 5-unit re-validation probe times out (the 10-unit
startup probe still succeeds). -/
def envTimeout : Env :=
  { envOk with probeVersion := fun _ t => if t = 5 then .timeout else .ok }

/-- C6: for every non-empty path string that does not exist on the
filesystem, `process_image` returns `(False, "File not found")`.  The
statement holds for every environment with that `pathExists` value, i.e.
for every behaviour of `openImage` and of the engine oracles, which is the
shallow-embedding form of "without ever attempting to open the file or
invoke the engine". -/
theorem claim_C6_missing_file (env : Env) (st : OCRState) (p : String)
    (hne : ¬ p = "") (hex : env.pathExists p = false) :
    process_image env st p = (false, "File not found") := by
  simp [process_image, hne, hex]

theorem claim_C6_missing_file_witness :
    "ghost.png" ≠ "" ∧ envNoFile.pathExists "ghost.png" = false ∧
      process_image envNoFile stOk "ghost.png" = (false, "File not found") :=
  ⟨by decide, rfl, claim_C6_missing_file envNoFile stOk "ghost.png" (by decide) rfl⟩

/-- C10: the gates of `process_image` run in the order emptiness,
existence, extension: a non-empty, non-existent path with an unsupported
extension is reported as `(False, "File not found")`, never as
`(False, "Unsupported file format")`. -/
theorem claim_C10_gate_order (env : Env) (st : OCRState) (p : String)
    (hne : ¬ p = "") (hex : env.pathExists p = false)
    (_hfmt : supportedFormat p = false) :
    process_image env st p = (false, "File not found") ∧
      ¬ process_image env st p = (false, "Unsupported file format") := by
  have h : process_image env st p = (false, "File not found") := by
    simp [process_image, hne, hex]
  refine ⟨h, ?_⟩
  rw [h]
  decide

theorem claim_C10_gate_order_witness :
    "ghost.xyz" ≠ "" ∧ envNoFile.pathExists "ghost.xyz" = false ∧
      supportedFormat "ghost.xyz" = false ∧
      (process_image envNoFile stOk "ghost.xyz" = (false, "File not found") ∧
        ¬ process_image envNoFile stOk "ghost.xyz" = (false, "Unsupported file format")) :=
  ⟨by decide, rfl, by decide,
    claim_C10_gate_order envNoFile stOk "ghost.xyz" (by decide) rfl (by decide)⟩

/-- C7: `save_text` rejects empty (falsy) text with
`(False, "No text to save")` and rejects an empty (falsy) output path with
`(False, "No output path provided")`; in both cases the returned
filesystem is exactly the input filesystem (the early returns precede the
`open`), and the statements hold for every `writeError` oracle, so no
filesystem access is performed; whenever either argument is empty the
filesystem is unchanged, so the write happens only when both are
non-empty. -/
theorem claim_C7_save_guards (env : Env) (fs : FS) :
    (∀ p, save_text env fs "" p = ((false, "No text to save"), fs)) ∧
      (∀ t, ¬ t = "" → save_text env fs t "" = ((false, "No output path provided"), fs)) ∧
      (∀ t p, t = "" ∨ p = "" → (save_text env fs t p).2 = fs) := by
  refine ⟨fun p => by simp [save_text], fun t ht => by simp [save_text, ht], ?_⟩
  rintro t p (rfl | rfl)
  · simp [save_text]
  · by_cases ht : t = "" <;> simp [save_text, ht]

theorem claim_C7_save_guards_witness :
    save_text envOk fs0 "" "out.txt" = ((false, "No text to save"), fs0) ∧
      "hello" ≠ "" ∧
      save_text envOk fs0 "hello" "" = ((false, "No output path provided"), fs0) ∧
      (save_text envOk fs0 "hello" "").2 = fs0 :=
  ⟨(claim_C7_save_guards envOk fs0).1 "out.txt", by decide,
    (claim_C7_save_guards envOk fs0).2.1 "hello" (by decide),
    (claim_C7_save_guards envOk fs0).2.2 "hello" "" (Or.inr rfl)⟩

/-- C5: save round-trip: for non-empty text and a non-empty path the write
of which succeeds, `save_text` returns `(True, "Text saved successfully")`
and reading the written file back yields exactly the saved text. -/
theorem claim_C5_save_roundtrip (env : Env) (fs : FS) (t p : String)
    (ht : ¬ t = "") (hp : ¬ p = "") (hw : env.writeError p = none) :
    (save_text env fs t p).1 = (true, "Text saved successfully") ∧
      readFile (save_text env fs t p).2 p = some t := by
  simp [save_text, ht, hp, hw, readFile]

theorem claim_C5_save_roundtrip_witness :
    "hello" ≠ "" ∧ "out.txt" ≠ "" ∧ envOk.writeError "out.txt" = none ∧
      ((save_text envOk fs0 "hello" "out.txt").1 = (true, "Text saved successfully") ∧
        readFile (save_text envOk fs0 "hello" "out.txt").2 "out.txt" = some "hello") :=
  ⟨by decide, by decide, rfl,
    claim_C5_save_roundtrip envOk fs0 "hello" "out.txt" (by decide) (by decide) rfl⟩

/-- C1: for every existing (hence non-empty) input path, the extension
gate of `process_image` decides the outcome: when the lowered path ends in
one of ".png", ".jpg", ".jpeg", ".bmp" the call delegates to the invoker —
its result is `(True, t)` exactly when `extract_text` returns `t`; for any
other extension the result is `(False, "Unsupported file format")`. -/
theorem claim_C1_format_gate (env : Env) (st : OCRState) (p : String)
    (hne : ¬ p = "") (hex : env.pathExists p = true) :
    (supportedFormat p = true →
      ∀ t, (process_image env st p = (true, t) ↔ extract_text env st p true = .ok t)) ∧
      (supportedFormat p = false →
        process_image env st p = (false, "Unsupported file format")) := by
  constructor
  · intro hs t
    cases h : extract_text env st p true with
    | ok s => simp [process_image, hne, hex, hs, h]
    | error e => simp [process_image, hne, hex, hs, h]
  · intro hs
    simp [process_image, hne, hex, hs]

theorem claim_C1_format_gate_witness :
    "in.png" ≠ "" ∧ envOk.pathExists "in.png" = true ∧
      supportedFormat "in.png" = true ∧
      (process_image envOk stOk "in.png" = (true, "TEST") ↔
        extract_text envOk stOk "in.png" true = .ok "TEST") ∧
      envOk.pathExists winProgramFiles = true ∧ supportedFormat winProgramFiles = false ∧
      process_image envOk stOk winProgramFiles = (false, "Unsupported file format") :=
  ⟨by decide, by decide, by decide,
    (claim_C1_format_gate envOk stOk "in.png" (by decide) (by decide)).1 (by decide) "TEST",
    by decide, by decide,
    (claim_C1_format_gate envOk stOk winProgramFiles (by decide) (by decide)).2 (by decide)⟩

/-- C4: the orchestration operations are total on string inputs: each call
returns a success-flag-plus-message pair (stated as an explicit pair
existence; the embedding's codomain is the pair type because every
raising sub-call sits inside the `try`), and every internal failure is
converted to a `(False, message)` result: a delegated extraction error `e`
becomes `(False, e)`, and a write error `e` becomes
`(False, "Error saving file: " ++ e)` with the filesystem unchanged. -/
theorem claim_C4_totality (env : Env) (st : OCRState) (fs : FS) (p t op : String) :
    (∃ b m, process_image env st p = (b, m)) ∧
      (∀ e, ¬ p = "" → env.pathExists p = true → supportedFormat p = true →
        extract_text env st p true = .error e → process_image env st p = (false, e)) ∧
      (∃ b m fs2, save_text env fs t op = ((b, m), fs2)) ∧
      (∀ e, ¬ t = "" → ¬ op = "" → env.writeError op = some e →
        save_text env fs t op = ((false, "Error saving file: " ++ e), fs)) := by
  refine ⟨⟨_, _, rfl⟩, ?_, ⟨_, _, _, rfl⟩, ?_⟩
  · intro e hne hex hs herr
    simp [process_image, hne, hex, hs, herr]
  · intro e ht hop hw
    simp [save_text, ht, hop, hw]

theorem claim_C4_totality_witness :
    extract_text envFail stOk "in.png" true =
        .error "Text extraction failed: Image processing failed: cannot identify image file" ∧
      process_image envFail stOk "in.png" =
        (false, "Text extraction failed: Image processing failed: cannot identify image file") ∧
      envFail.writeError "out.txt" = some "Permission denied" ∧
      save_text envFail fs0 "hello" "out.txt" =
        ((false, "Error saving file: " ++ "Permission denied"), fs0) :=
  ⟨by rfl,
    (claim_C4_totality envFail stOk fs0 "in.png" "hello" "out.txt").2.1
      "Text extraction failed: Image processing failed: cannot identify image file"
      (by decide) (by decide) (by decide) (by rfl),
    rfl,
    (claim_C4_totality envFail stOk fs0 "in.png" "hello" "out.txt").2.2.2
      "Permission denied" (by decide) (by decide) rfl⟩

/-- C3: `extract_text` collapses every internal exception into the one
uniform error: whenever its `try` body fails with message `e`, the call
fails with exactly `"Text extraction failed: " ++ e` (the original cause's
message is carried); conversely every error the call can produce has that
shape, with the cause being a failure of the body. -/
theorem claim_C3_uniform_wrap (env : Env) (st : OCRState) (p : String) (pre : Bool) :
    (∀ e, extract_text_body env st p pre = .error e →
      extract_text env st p pre = .error ("Text extraction failed: " ++ e)) ∧
      (∀ e, extract_text env st p pre = .error e →
        ∃ c, e = "Text extraction failed: " ++ c ∧
          extract_text_body env st p pre = .error c) := by
  constructor
  · intro e h
    simp [extract_text, h]
  · intro e h
    cases hb : extract_text_body env st p pre with
    | ok t => simp [extract_text, hb] at h
    | error c =>
      refine ⟨c, ?_, rfl⟩
      simp [extract_text, hb] at h
      exact h.symm

theorem claim_C3_uniform_wrap_witness :
    extract_text_body envFail stOk "in.png" true =
        .error "Image processing failed: cannot identify image file" ∧
      extract_text envFail stOk "in.png" true =
        .error ("Text extraction failed: " ++ "Image processing failed: cannot identify image file") :=
  ⟨by rfl,
    (claim_C3_uniform_wrap envFail stOk "in.png" true).1
      "Image processing failed: cannot identify image file" (by rfl)⟩

/-- The `repr` rendering of each list member occurs inside the rendering
of the list's elements. -/
theorem pyItems_split (c : String) : ∀ ps : List String, c ∈ ps →
    ∃ pre post, pyItems ps = pre ++ (pyReprStr c ++ post) := by
  intro ps
  induction ps with
  | nil => intro hc; cases hc
  | cons p rest ih =>
    intro hc
    cases rest with
    | nil =>
      have hcp : c = p := by simpa using hc
      subst hcp
      exact ⟨ "", "", by simp [pyItems]⟩
    | cons q rest2 =>
      rcases List.mem_cons.mp hc with hc1 | hc2
      · subst hc1
        exact ⟨ "", ", " ++ pyItems (q :: rest2), by simp [pyItems]⟩
      · rcases ih hc2 with ⟨pre, post, hp⟩
        refine ⟨pyReprStr p ++ (", " ++ pre), post, ?_⟩
        simp [pyItems, hp, String.append_assoc]

/-- The `repr` rendering of each tried candidate occurs inside the fatal
message. -/
theorem tesseract_msg_split (c : String) (ps : List String) (hc : c ∈ ps) :
    ∃ pre post, tesseract_not_found_msg ps = pre ++ (pyReprStr c ++ post) := by
  rcases pyItems_split c ps hc with ⟨pre, post, hp⟩
  refine ⟨tesseract_not_found_header ++ ( "[" ++ pre), post ++ "]", ?_⟩
  simp [tesseract_not_found_msg, pyListRepr, hp, String.append_assoc]

/-- A candidate returned by the locator loop passed the acceptance test and
came from the probed list. -/
theorem locate_mem (env : Env) : ∀ (l : List String) (c : String),
    locate env l = some c → accepts env c = true ∧ c ∈ l := by
  intro l
  induction l with
  | nil => intro c hc; simp [locate] at hc
  | cons a l ih =>
    intro c hc
    by_cases ha : accepts env a = true
    · simp [locate, ha] at hc
      subst hc
      exact ⟨ha, List.mem_cons_self a l⟩
    · have ha2 : accepts env a = false := by simpa using ha
      simp [locate, ha2] at hc
      rcases ih c hc with ⟨h1, h2⟩
      exact ⟨h1, List.mem_cons_of_mem a h2⟩

/-- C2: the locator probes an ordered candidate list — a non-empty hint
first, then the two Program Files locations and the per-user location,
then the bare name — and returns exactly the first candidate passing the
acceptance test: the loop equals `List.find?`, an accepted head is
returned immediately whatever follows it (so later candidates are never
evaluated), path-form candidates are tested by filesystem existence, and
the bare name by the 10-unit version probe exiting successfully. -/
theorem claim_C2_locator_order (env : Env) (h : String) (hh : ¬ h = "") :
    possible_paths env (some h) =
      h :: [ winProgramFiles, winProgramFilesX86, winUserLocal env.username, "tesseract"] ∧
      (∀ l, locate env l = l.find? (accepts env)) ∧
      (∀ p ps ps2, accepts env p = true →
        locate env (p :: ps) = some p ∧ locate env (p :: ps) = locate env (p :: ps2)) ∧
      (∀ q, ¬ q = "tesseract" → accepts env q = env.pathExists q) ∧
      (accepts env "tesseract" = true ↔ env.probeVersion "tesseract" 10 = .ok) := by
  refine ⟨by simp [possible_paths, base_paths, hh], ?_, ?_, ?_, ?_⟩
  · intro l
    induction l with
    | nil => rfl
    | cons a l ih =>
      by_cases ha : accepts env a = true
      · simp [locate, ha, List.find?_cons_of_pos]
      · have ha2 : accepts env a = false := by simpa using ha
        simp [locate, ha2, List.find?_cons_of_neg, ih]
  · intro p ps ps2 hp
    constructor <;> simp [locate, hp]
  · intro q hq
    simp [accepts, hq]
  · cases hpv : env.probeVersion "tesseract" 10 <;> simp [accepts, hpv]

theorem claim_C2_locator_order_witness :
    "C:\\hint.exe" ≠ "" ∧
      possible_paths envOk (some "C:\\hint.exe") =
        "C:\\hint.exe" ::
          [ winProgramFiles, winProgramFilesX86, winUserLocal envOk.username, "tesseract"] ∧
      locate envOk [ winProgramFiles, "other"] =
        [ winProgramFiles, "other"].find? (accepts envOk) ∧
      accepts envOk winProgramFiles = true ∧
      (locate envOk (winProgramFiles :: [ "other"]) = some winProgramFiles ∧
        locate envOk (winProgramFiles :: [ "other"]) =
          locate envOk (winProgramFiles :: [ "changed"])) ∧
      winProgramFiles ≠ "tesseract" ∧
      accepts envOk winProgramFiles = envOk.pathExists winProgramFiles ∧
      (accepts envOk "tesseract" = true ↔ envOk.probeVersion "tesseract" 10 = .ok) :=
  ⟨by decide,
    (claim_C2_locator_order envOk "C:\\hint.exe" (by decide)).1,
    (claim_C2_locator_order envOk "C:\\hint.exe" (by decide)).2.1 [ winProgramFiles, "other"],
    by decide,
    (claim_C2_locator_order envOk "C:\\hint.exe" (by decide)).2.2.1
      winProgramFiles [ "other"] [ "changed"] (by decide),
    by decide,
    (claim_C2_locator_order envOk "C:\\hint.exe" (by decide)).2.2.2.1
      winProgramFiles (by decide),
    (claim_C2_locator_order envOk "C:\\hint.exe" (by decide)).2.2.2.2⟩

/-- C9: when no candidate is accepted the constructor raises: the result
is the fatal error whose f-string-interpolated message enumerates every
candidate tried — the message contains each candidate's Python `repr`
rendering (its characters single-quoted, backslashes doubled) as a
substring; and a successfully constructed processor always carries a
resolved command that passed the acceptance test and came from the
candidate list. -/
theorem claim_C9_fatal_init (env : Env) (hint : Option String) :
    (locate env (possible_paths env hint) = none →
      OCRProcessor_init env hint =
        .error (tesseract_not_found_msg (possible_paths env hint)) ∧
      ∀ c ∈ possible_paths env hint, ∃ pre post,
        tesseract_not_found_msg (possible_paths env hint) = pre ++ (pyReprStr c ++ post)) ∧
      (∀ st, OCRProcessor_init env hint = .ok st →
        accepts env st.tesseract_cmd = true ∧ st.tesseract_cmd ∈ possible_paths env hint) := by
  constructor
  · intro hn
    refine ⟨by simp [OCRProcessor_init, hn], ?_⟩
    intro c hc
    exact tesseract_msg_split c (possible_paths env hint) hc
  · intro st hst
    cases hl : locate env (possible_paths env hint) with
    | none => simp [OCRProcessor_init, hl] at hst
    | some cmd =>
      simp [OCRProcessor_init, hl] at hst
      subst hst
      simpa using locate_mem env (possible_paths env hint) cmd hl

theorem claim_C9_fatal_init_witness :
    locate envNoFile (possible_paths envNoFile none) = none ∧
      OCRProcessor_init envNoFile none =
        .error (tesseract_not_found_msg (possible_paths envNoFile none)) ∧
      pyReprStr winProgramFiles =
        "\x27C:\\\\Program Files\\\\Tesseract-OCR\\\\tesseract.exe\x27" ∧
      (∃ pre post, tesseract_not_found_msg (possible_paths envNoFile none) =
        pre ++ (pyReprStr winProgramFiles ++ post)) ∧
      (∃ pre post, tesseract_not_found_msg (possible_paths envNoFile none) =
        pre ++ (pyReprStr "tesseract" ++ post)) ∧
      OCRProcessor_init envOk none = .ok ⟨winProgramFiles, "--oem 3 --psm 6"⟩ ∧
      (accepts envOk (OCRState.mk winProgramFiles "--oem 3 --psm 6").tesseract_cmd = true ∧
        (OCRState.mk winProgramFiles "--oem 3 --psm 6").tesseract_cmd ∈
          possible_paths envOk none) :=
  ⟨by decide,
    ((claim_C9_fatal_init envNoFile none).1 (by decide)).1,
    by decide,
    ((claim_C9_fatal_init envNoFile none).1 (by decide)).2 winProgramFiles (by decide),
    ((claim_C9_fatal_init envNoFile none).1 (by decide)).2 "tesseract" (by decide),
    by rfl,
    (claim_C9_fatal_init envOk none).2 ⟨winProgramFiles, "--oem 3 --psm 6"⟩ (by rfl)⟩

/-- Image acquisition never consults the recognition oracle. -/
theorem acquire_image_ignores_ocr (env : Env) (f : Img → String → Except String String)
    (p : String) (pre : Bool) :
    acquire_image { env with imageToString := f } p pre = acquire_image env p pre := rfl

/-- Engine re-validation never consults the recognition oracle. -/
theorem validate_cmd_ignores_ocr (env : Env) (f : Img → String → Except String String)
    (cmd : String) :
    validate_cmd { env with imageToString := f } cmd = validate_cmd env cmd := rfl

/-- C8: before each invocation `extract_text` re-validates the resolved
engine command with the version probe at the 5-unit timeout: a successful
extraction implies the re-validation succeeded; when re-validation fails
after an image was acquired, the call fails fast with the descriptive
error surfaced through the uniform wrapper, and its result does not depend
on the recognition oracle at all; the re-validation outcome is a function
of `pathExists` at the command and of the probe at timeout 5 only; a probe
timeout, a nonzero probe exit, and a non-existing path-form command each
produce their descriptive validation error. -/
theorem claim_C8_revalidation (env : Env) (st : OCRState) (p : String) (pre : Bool) :
    (∀ t, extract_text env st p pre = .ok t → validate_cmd env st.tesseract_cmd = .ok ()) ∧
      (∀ e img, ¬ p = "" → acquire_image env p pre = .ok img →
        validate_cmd env st.tesseract_cmd = .error e →
        extract_text env st p pre = .error ( "Text extraction failed: " ++ e)) ∧
      (∀ e f, validate_cmd env st.tesseract_cmd = .error e →
        extract_text { env with imageToString := f } st p pre = extract_text env st p pre) ∧
      (∀ env2, env2.pathExists st.tesseract_cmd = env.pathExists st.tesseract_cmd →
        env2.probeVersion st.tesseract_cmd 5 = env.probeVersion st.tesseract_cmd 5 →
        validate_cmd env2 st.tesseract_cmd = validate_cmd env st.tesseract_cmd) ∧
      ((env.pathExists st.tesseract_cmd = true ∨ st.tesseract_cmd = "tesseract") →
        (env.probeVersion st.tesseract_cmd 5 = .timeout →
          validate_cmd env st.tesseract_cmd = .error "Tesseract test timed out") ∧
        (∀ s, env.probeVersion st.tesseract_cmd 5 = .exitFail s →
          validate_cmd env st.tesseract_cmd =
            .error ( "Tesseract validation failed: " ++ ( "Tesseract test failed: " ++ s)))) ∧
      (env.pathExists st.tesseract_cmd = false → ¬ st.tesseract_cmd = "tesseract" →
        validate_cmd env st.tesseract_cmd =
          .error ( "Tesseract validation failed: " ++
            ( "Tesseract executable not found at: " ++ st.tesseract_cmd))) := by
  refine ⟨?_, ?_, ?_, ?_, ?_, ?_⟩
  · intro t ht
    cases hb : extract_text_body env st p pre with
    | error e => simp [extract_text, hb] at ht
    | ok s =>
      by_cases hp : p = ""
      · simp [extract_text_body, hp] at hb
      · cases ha : acquire_image env p pre with
        | error e =>
          simp [extract_text_body, hp, ha] at hb
        | ok img =>
          cases hv : validate_cmd env st.tesseract_cmd with
          | error e => simp [extract_text_body, hp, ha, hv] at hb
          | ok u => cases u; rfl
  · intro e img hp ha hv
    simp [extract_text, extract_text_body, hp, ha, hv]
  · intro e f hv
    by_cases hp : p = ""
    · simp [extract_text, extract_text_body, hp]
    · cases ha : acquire_image env p pre with
      | error e2 =>
        have ha2 : acquire_image { env with imageToString := f } p pre = .error e2 := by
          rw [acquire_image_ignores_ocr]; exact ha
        simp [extract_text, extract_text_body, hp, ha, ha2]
      | ok img =>
        have ha2 : acquire_image { env with imageToString := f } p pre = .ok img := by
          rw [acquire_image_ignores_ocr]; exact ha
        have hv2 : validate_cmd { env with imageToString := f } st.tesseract_cmd = .error e := by
          rw [validate_cmd_ignores_ocr]; exact hv
        simp [extract_text, extract_text_body, hp, ha, ha2, hv, hv2]
  · intro env2 h1 h2
    simp [validate_cmd, h1, h2]
  · intro hg
    constructor
    · intro hto
      rcases hg with hg | hg
      · simp [validate_cmd, hg, hto]
      · rw [hg] at hto
        simp [validate_cmd, hg, hto]
    · intro s hs
      rcases hg with hg | hg
      · simp [validate_cmd, hg, hs]
      · rw [hg] at hs
        simp [validate_cmd, hg, hs]
  · intro h1 h2
    simp [validate_cmd, h1, h2]

theorem claim_C8_revalidation_witness :
    "in.png" ≠ "" ∧
      acquire_image envTimeout "in.png" true = .ok 0 ∧
      envTimeout.probeVersion stOk.tesseract_cmd 5 = .timeout ∧
      validate_cmd envTimeout stOk.tesseract_cmd = .error "Tesseract test timed out" ∧
      extract_text envTimeout stOk "in.png" true =
        .error ( "Text extraction failed: " ++ "Tesseract test timed out") :=
  ⟨by decide, rfl, rfl,
    ((claim_C8_revalidation envTimeout stOk "in.png" true).2.2.2.2.1 (Or.inr rfl)).1 rfl,
    (claim_C8_revalidation envTimeout stOk "in.png" true).2.1 "Tesseract test timed out" 0
      (by decide) rfl
      (((claim_C8_revalidation envTimeout stOk "in.png" true).2.2.2.2.1 (Or.inr rfl)).1 rfl)⟩
